import Mathlib

/-!
Verification of the layer-timing accumulator in
src/vllm/utils/layer_timing.py.

The module keeps two pieces of persisted state in the host's temp
directory: a JSON counter file (vllm_layer_timing.json) and an empty
enablement flag file (vllm_layer_timing_enabled).  We embed that state
shallowly:

* the flag file is present or absent, modelled by a Bool;
* the counter file's content is modelled by an inductive CounterFile that
  distinguishes the cases the Python code distinguishes when reading it:
  the file is absent; reading raises IOError; the bytes decode but are not
  valid JSON (json.JSONDecodeError); the bytes do not decode as text at
  all (UnicodeDecodeError, which is a ValueError but neither a
  json.JSONDecodeError nor an IOError, so the except clauses in
  _read_timing_data and the inner try of _write_timing_data do not catch
  it); the content is valid JSON but not an object (json.load succeeds
  and returns e.g. a list); or it is a JSON object with the four numeric
  fields attention_ms, ffn_ms, total_layer_ms, count.  JSON objects with
  missing or non-numeric fields are not modelled.

Python floats are modelled as exact rationals and the JSON integer count
as an integer; filesystem writes, flag touch/remove and file removal are
modelled on their success path (the code swallows their failures, leaving
the state unchanged, which none of the properties below depend on).
Exceptions that escape to the caller are modelled with Except.
-/

namespace LayerTiming

/-- TimingData is the JSON object stored in the counter file: fields
attention_ms, ffn_ms, total_layer_ms (floats) and count (integer). -/
structure TimingData where
  attention_ms : ℚ
  ffn_ms : ℚ
  total_layer_ms : ℚ
  count : ℤ
  deriving DecidableEq

/-- zeroData is the default record the code starts from:
attention_ms 0.0, ffn_ms 0.0, total_layer_ms 0.0, count 0. -/
def zeroData : TimingData := ⟨0, 0, 0, 0⟩

/-- CounterFile models the possible contents of the shared counter file,
as distinguished by the reading code (see the module comment). -/
inductive CounterFile where
  | absent
  | ioErr
  | unparseable
  | undecodable
  | nonDict
  | record (d : TimingData)
  deriving DecidableEq

/-- PyExn models the Python exceptions that can escape to the caller of
the aggregation functions. -/
inductive PyExn where
  | attributeError
  | unicodeDecodeError
  deriving DecidableEq

/-- PyValue models the Python value returned by _read_timing_data: either
a dict with the four fields, or some non-dict JSON value. -/
inductive PyValue where
  | dict (d : TimingData)
  | nonDict
  deriving DecidableEq

/-- accum models the accumulation step of _write_timing_data:
each duration is added to its field and count is incremented by one. -/
def accum (d : TimingData) (attention_ms ffn_ms total_layer_ms : ℚ) : TimingData :=
  ⟨d.attention_ms + attention_ms, d.ffn_ms + ffn_ms,
   d.total_layer_ms + total_layer_ms, d.count + 1⟩

/-- Embedding of _write_timing_data.  The whole body is wrapped in
try/except Exception, so nothing escapes.  Inside, the current file is
loaded with absence, IOError and json.JSONDecodeError all degrading to
the default zero record (which is then accumulated into and written
back, overwriting the file); a UnicodeDecodeError escapes the inner
except clause and aborts the write via the outer except (file
unchanged); a non-dict JSON value makes the += item access raise
TypeError, likewise aborting the write via the outer except. -/
def _write_timing_data (attention_ms ffn_ms total_layer_ms : ℚ) :
    CounterFile → CounterFile
  | CounterFile.absent => CounterFile.record (accum zeroData attention_ms ffn_ms total_layer_ms)
  | CounterFile.ioErr => CounterFile.record (accum zeroData attention_ms ffn_ms total_layer_ms)
  | CounterFile.unparseable => CounterFile.record (accum zeroData attention_ms ffn_ms total_layer_ms)
  | CounterFile.undecodable => CounterFile.undecodable
  | CounterFile.nonDict => CounterFile.nonDict
  | CounterFile.record d => CounterFile.record (accum d attention_ms ffn_ms total_layer_ms)

/-- Embedding of _read_timing_data.  Absence, IOError and
json.JSONDecodeError yield the default zero record; valid JSON is
returned as-is (a non-dict value included); a UnicodeDecodeError raised
while json.load reads the file matches neither except clause and
propagates to the caller. -/
def _read_timing_data : CounterFile → Except PyExn PyValue
  | CounterFile.absent => Except.ok (PyValue.dict zeroData)
  | CounterFile.ioErr => Except.ok (PyValue.dict zeroData)
  | CounterFile.unparseable => Except.ok (PyValue.dict zeroData)
  | CounterFile.undecodable => Except.error PyExn.unicodeDecodeError
  | CounterFile.nonDict => Except.ok (PyValue.nonDict)
  | CounterFile.record d => Except.ok (PyValue.dict d)

/-- CatSummary is one per-category entry of the dict returned by
get_aggregated_summary: name, total_ms, mean_ms, count. -/
structure CatSummary where
  name : String
  total_ms : ℚ
  mean_ms : ℚ
  count : ℤ
  deriving DecidableEq

/-- Summary is the dict returned by get_aggregated_summary. -/
structure Summary where
  attention : CatSummary
  ffn : CatSummary
  total_layer : CatSummary
  num_layers : ℤ
  deriving DecidableEq

/-- mkSummary builds the summary dict from a successfully read record,
exactly as get_aggregated_summary does: each mean is total divided by
count when count is strictly positive and 0 otherwise. -/
def mkSummary (d : TimingData) : Summary :=
  ⟨⟨"Attention", d.attention_ms,
    if 0 < d.count then d.attention_ms / (d.count : ℚ) else 0, d.count⟩,
   ⟨"FFN", d.ffn_ms,
    if 0 < d.count then d.ffn_ms / (d.count : ℚ) else 0, d.count⟩,
   ⟨"Total Layer", d.total_layer_ms,
    if 0 < d.count then d.total_layer_ms / (d.count : ℚ) else 0, d.count⟩,
   d.count⟩

/-- zeroSummary is the all-zero summary. -/
def zeroSummary : Summary :=
  ⟨⟨"Attention", 0, 0, 0⟩, ⟨"FFN", 0, 0, 0⟩, ⟨"Total Layer", 0, 0, 0⟩, 0⟩

/-- Embedding of get_aggregated_summary as a function of the counter
file content.  A UnicodeDecodeError from the load step propagates; when
the load step hands back a non-dict value, the subsequent
data.get("count", 0) raises AttributeError, uncaught. -/
def get_aggregated_summary : CounterFile → Except PyExn Summary
  | c =>
    match _read_timing_data c with
    | Except.error e => Except.error e
    | Except.ok PyValue.nonDict => Except.error PyExn.attributeError
    | Except.ok (PyValue.dict d) => Except.ok (mkSummary d)

/-- SysState is the whole persisted state: the enablement flag file's
presence and the counter file's content. -/
structure SysState where
  enabled : Bool
  counter : CounterFile
  deriving DecidableEq

/-- Embedding of LayerTimingManager.enable: touch the flag file.  The
sync_after_each parameter is accepted and unused, as in the source. -/
def enable_op (sync_after_each : Bool) (s : SysState) : SysState :=
  ⟨true, s.counter⟩

/-- Embedding of LayerTimingManager.disable: remove the flag file. -/
def disable_op (s : SysState) : SysState :=
  ⟨false, s.counter⟩

/-- Embedding of the is_enabled property: re-checks the flag file's
presence, touching nothing. -/
def is_enabled_op (s : SysState) : Bool × SysState :=
  (s.enabled, s)

/-- Embedding of LayerTimingManager.record_timing: if the flag file is
absent, return immediately; otherwise forward attention_ms, ffn_ms and
total_layer_ms to _write_timing_data.  layer_idx, input_layernorm_ms and
post_attn_layernorm_ms are accepted and unused, as in the source. -/
def record_timing_op (layer_idx : ℤ)
    (attention_ms ffn_ms input_layernorm_ms post_attn_layernorm_ms total_layer_ms : ℚ)
    (s : SysState) : SysState :=
  if s.enabled then
    ⟨s.enabled, _write_timing_data attention_ms ffn_ms total_layer_ms s.counter⟩
  else s

/-- Embedding of LayerTimingManager.get_aggregated_summary as a state
transformer: it only reads the counter file. -/
def get_aggregated_summary_op (s : SysState) : Except PyExn Summary × SysState :=
  (get_aggregated_summary s.counter, s)

/-- OutLine models one printed line of print_summary.  The summary title
block is modelled as ruleLine/titleLine/callsLine/dashLine; the
conditional block as attentionLine (ms and percentage), ffnLine (ms and
percentage), totalLine (ms) and ratioLine.  Only line identity, order
and the printed numbers are modelled, not the f-string rendering. -/
inductive OutLine where
  | ruleLine
  | titleLine
  | callsLine (n : ℤ)
  | dashLine
  | attentionLine (ms pct : ℚ)
  | ffnLine (ms pct : ℚ)
  | totalLine (ms : ℚ)
  | ratioLine (r : ℚ)
  deriving DecidableEq

/-- print_summary_lines models the sequence of print calls of
print_summary given the summary it obtained: the header lines are
unconditional; the attention/ffn/total lines (with percentages of the
total) are printed only when the total-layer total is strictly positive,
and inside that branch the attention-to-ffn ratioLine is printed only
when the ffn total is strictly positive; a closing rule ends the
output. -/
def print_summary_lines (s : Summary) : List OutLine :=
  [OutLine.ruleLine, OutLine.titleLine, OutLine.ruleLine,
   OutLine.callsLine s.num_layers, OutLine.dashLine] ++
  (if 0 < s.total_layer.total_ms then
    [OutLine.attentionLine s.attention.total_ms
       (s.attention.total_ms / s.total_layer.total_ms * 100),
     OutLine.ffnLine s.ffn.total_ms
       (s.ffn.total_ms / s.total_layer.total_ms * 100),
     OutLine.totalLine s.total_layer.total_ms] ++
    (if 0 < s.ffn.total_ms then
      [OutLine.ratioLine (s.attention.total_ms / s.ffn.total_ms)]
     else [])
   else []) ++
  [OutLine.ruleLine]

/-- Embedding of LayerTimingManager.print_summary: it first calls
get_aggregated_summary (any exception from there propagates, nothing
printed) and then prints; it only reads the counter file. -/
def print_summary_op (s : SysState) : Except PyExn (List OutLine) × SysState :=
  (match get_aggregated_summary s.counter with
   | Except.error e => Except.error e
   | Except.ok sm => Except.ok (print_summary_lines sm), s)

/-- Embedding of _clear_timing_data / LayerTimingManager.clear: remove
the counter file if present (idempotent). -/
def clear_op (s : SysState) : SysState :=
  ⟨s.enabled, CounterFile.absent⟩

/-- Embedding of LayerTimingManager.reset: clear then disable. -/
def reset_op (s : SysState) : SysState :=
  disable_op (clear_op s)

/-- sumA is the sum of the attention durations of a list of
(attention_ms, ffn_ms, total_layer_ms) record calls. -/
def sumA (calls : List (ℚ × ℚ × ℚ)) : ℚ := (calls.map fun c => c.1).sum

/-- sumF is the sum of the ffn durations of a list of record calls. -/
def sumF (calls : List (ℚ × ℚ × ℚ)) : ℚ := (calls.map fun c => c.2.1).sum

/-- sumT is the sum of the total-layer durations of a list of record
calls. -/
def sumT (calls : List (ℚ × ℚ × ℚ)) : ℚ := (calls.map fun c => c.2.2).sum

/-- runRecords performs a sequence of record_timing calls (with
layer_idx 0 and zero layernorm arguments, which record_timing
ignores). -/
def runRecords (calls : List (ℚ × ℚ × ℚ)) (s : SysState) : SysState :=
  calls.foldl (fun st c => record_timing_op 0 c.1 c.2.1 0 0 c.2.2 st) s

/-- Running a sequence of record calls while enabled over a counter file
holding record d adds the per-category sums to d's fields and the call
count to d's count. -/
lemma runRecords_record (calls : List (ℚ × ℚ × ℚ)) : ∀ d : TimingData,
    runRecords calls ⟨true, CounterFile.record d⟩ =
      ⟨true, CounterFile.record ⟨d.attention_ms + sumA calls, d.ffn_ms + sumF calls,
        d.total_layer_ms + sumT calls, d.count + (calls.length : ℤ)⟩⟩ := by
  induction calls with
  | nil =>
      intro d
      cases d
      simp [runRecords, sumA, sumF, sumT]
  | cons c rest ih =>
      intro d
      have h1 : runRecords (c :: rest) ⟨true, CounterFile.record d⟩ =
          runRecords rest ⟨true, CounterFile.record (accum d c.1 c.2.1 c.2.2)⟩ := rfl
      rw [h1, ih (accum d c.1 c.2.1 c.2.2)]
      simp only [accum, sumA, sumF, sumT, List.map_cons, List.sum_cons,
        List.length_cons, SysState.mk.injEq, CounterFile.record.injEq,
        TimingData.mk.injEq]
      refine ⟨trivial, ?_, ?_, ?_, ?_⟩ <;> push_cast <;> ring

/-- goodData is the counter-record invariant stated by the spec: all
four fields non-negative, and a zero count forces all totals to zero. -/
def goodData (d : TimingData) : Prop :=
  0 ≤ d.attention_ms ∧ 0 ≤ d.ffn_ms ∧ 0 ≤ d.total_layer_ms ∧ 0 ≤ d.count ∧
    (d.count = 0 → d.attention_ms = 0 ∧ d.ffn_ms = 0 ∧ d.total_layer_ms = 0)

/-- goodCounter lifts goodData to counter-file contents reachable via
the module's own operations (absent, or a well-formed record). -/
def goodCounter : CounterFile → Prop
  | CounterFile.absent => True
  | CounterFile.record d => goodData d
  | _ => False

/-- effData is the record a reader of the counter file effectively sees:
the stored record, or the zero record when none is readable. -/
def effData : CounterFile → TimingData
  | CounterFile.record d => d
  | _ => zeroData

/-- isRatioLine recognises the attention-to-ffn ratioLine. -/
def isRatioLine : OutLine → Bool
  | OutLine.ratioLine _ => true
  | _ => false

/-- isPercentLine recognises the lines carrying percentage figures (the
attention and ffn lines). -/
def isPercentLine : OutLine → Bool
  | OutLine.attentionLine _ _ => true
  | OutLine.ffnLine _ _ => true
  | _ => false

/-- isTotalMsLine recognises the grand-total milliseconds line. -/
def isTotalMsLine : OutLine → Bool
  | OutLine.totalLine _ => true
  | _ => false

/-- isCallsLine recognises the forward-call-count line. -/
def isCallsLine : OutLine → Bool
  | OutLine.callsLine _ => true
  | _ => false

/-- hasRatioLine tells whether the printed output contains a ratioLine. -/
def hasRatioLine (ls : List OutLine) : Bool := ls.any isRatioLine

/-- hasPercentLines tells whether the printed output contains the
percentage-bearing lines. -/
def hasPercentLines (ls : List OutLine) : Bool := ls.any isPercentLine

/-- hasTotalMsLine tells whether the printed output contains the
grand-total line. -/
def hasTotalMsLine (ls : List OutLine) : Bool := ls.any isTotalMsLine

/-- hasCallsLine tells whether the printed output contains the
call-count line. -/
def hasCallsLine (ls : List OutLine) : Bool := ls.any isCallsLine

/-- C1: starting from an absent counter with the flag enabled, after any
sequence of record calls the summary's num_layers equals the number of
calls and each category's total equals the sum of that category's
supplied durations; in particular record(10, 5, 16) then
record(20, 15, 36) yields attention total 30 with mean 15, ffn total 20
with mean 10, total_layer total 52, and num_layers 2. -/
theorem C1_record_totals (calls : List (ℚ × ℚ × ℚ)) :
    (get_aggregated_summary_op (runRecords calls ⟨true, CounterFile.absent⟩)).1 =
      Except.ok (mkSummary ⟨sumA calls, sumF calls, sumT calls, (calls.length : ℤ)⟩) ∧
    (mkSummary ⟨sumA calls, sumF calls, sumT calls, (calls.length : ℤ)⟩).num_layers =
      (calls.length : ℤ) ∧
    (mkSummary ⟨sumA calls, sumF calls, sumT calls, (calls.length : ℤ)⟩).attention.total_ms =
      sumA calls ∧
    (mkSummary ⟨sumA calls, sumF calls, sumT calls, (calls.length : ℤ)⟩).ffn.total_ms =
      sumF calls ∧
    (mkSummary ⟨sumA calls, sumF calls, sumT calls, (calls.length : ℤ)⟩).total_layer.total_ms =
      sumT calls ∧
    (get_aggregated_summary_op
        (runRecords [(10, 5, 16), (20, 15, 36)] ⟨true, CounterFile.absent⟩)).1 =
      Except.ok ⟨⟨"Attention", 30, 15, 2⟩, ⟨"FFN", 20, 10, 2⟩,
        ⟨"Total Layer", 52, 26, 2⟩, 2⟩ := by
  refine ⟨?_, rfl, rfl, rfl, rfl, ?_⟩
  · cases calls with
    | nil =>
        simp [runRecords, get_aggregated_summary_op, get_aggregated_summary,
          _read_timing_data, mkSummary, sumA, sumF, sumT, zeroData]
    | cons c rest =>
        have h1 : runRecords (c :: rest) ⟨true, CounterFile.absent⟩ =
            runRecords rest ⟨true, CounterFile.record (accum zeroData c.1 c.2.1 c.2.2)⟩ := rfl
        have h2 : (⟨(accum zeroData c.1 c.2.1 c.2.2).attention_ms + sumA rest,
            (accum zeroData c.1 c.2.1 c.2.2).ffn_ms + sumF rest,
            (accum zeroData c.1 c.2.1 c.2.2).total_layer_ms + sumT rest,
            (accum zeroData c.1 c.2.1 c.2.2).count + (rest.length : ℤ)⟩ : TimingData) =
            ⟨sumA (c :: rest), sumF (c :: rest), sumT (c :: rest),
              ((c :: rest).length : ℤ)⟩ := by
          simp only [accum, zeroData, sumA, sumF, sumT, List.map_cons, List.sum_cons,
            List.length_cons, TimingData.mk.injEq]
          refine ⟨?_, ?_, ?_, ?_⟩ <;> push_cast <;> ring
        rw [h1, runRecords_record rest (accum zeroData c.1 c.2.1 c.2.2)]
        simp only [get_aggregated_summary_op, get_aggregated_summary, _read_timing_data, h2]
  · norm_num [runRecords, record_timing_op, _write_timing_data, accum, zeroData,
      get_aggregated_summary_op, get_aggregated_summary, _read_timing_data, mkSummary]

/-- C2: while the flag is absent, a record call is a no-op: the state is
unchanged, nothing is raised, and the subsequent summary result is the
same as without the call. -/
theorem C2_disabled_noop (li : ℤ) (a f il pa t : ℚ) (c : CounterFile) :
    record_timing_op li a f il pa t ⟨false, c⟩ = ⟨false, c⟩ ∧
    (get_aggregated_summary_op (record_timing_op li a f il pa t ⟨false, c⟩)).1 =
      (get_aggregated_summary_op ⟨false, c⟩).1 := by
  constructor <;> simp [record_timing_op]

/-- C3: with the counter file absent (never used or just cleared), the
summary is the all-zero summary and no division by zero happens: the
mean branch yields 0 whenever the count is 0. -/
theorem C3_zero_summary :
    (∀ e : Bool, (get_aggregated_summary_op ⟨e, CounterFile.absent⟩).1 =
      Except.ok zeroSummary) ∧
    (∀ s : SysState, (get_aggregated_summary_op (clear_op s)).1 =
      Except.ok zeroSummary) ∧
    (∀ x y z : ℚ, (mkSummary ⟨x, y, z, 0⟩).attention.mean_ms = 0 ∧
      (mkSummary ⟨x, y, z, 0⟩).ffn.mean_ms = 0 ∧
      (mkSummary ⟨x, y, z, 0⟩).total_layer.mean_ms = 0) ∧
    zeroSummary.attention.total_ms = 0 ∧ zeroSummary.ffn.total_ms = 0 ∧
    zeroSummary.total_layer.total_ms = 0 ∧ zeroSummary.attention.mean_ms = 0 ∧
    zeroSummary.ffn.mean_ms = 0 ∧ zeroSummary.total_layer.mean_ms = 0 ∧
    zeroSummary.num_layers = 0 := by
  refine ⟨?_, ?_, ?_, rfl, rfl, rfl, rfl, rfl, rfl, rfl⟩
  · intro e
    norm_num [get_aggregated_summary_op, get_aggregated_summary, _read_timing_data,
      mkSummary, zeroData, zeroSummary]
  · intro s
    norm_num [clear_op, get_aggregated_summary_op, get_aggregated_summary,
      _read_timing_data, mkSummary, zeroData, zeroSummary]
  · intro x y z
    norm_num [mkSummary]

/-- C4 counterexample: with the flag enabled, record(attention 0, ffn 5,
total_layer 0) from an absent counter reaches a state whose ffn total is
5 (nonzero) yet the printed summary contains no ratioLine — and the
per-category millisecond lines are missing as well — because the whole
block, ratio included, is guarded by the total-layer total being
strictly positive.  This refutes the claim that the ratio line is
omitted only when the ffn total is exactly zero and that only the
percentage and ratio figures are conditional. -/
theorem C4_counterexample :
    (record_timing_op 0 0 5 0 0 0 ⟨true, CounterFile.absent⟩).counter =
      CounterFile.record ⟨0, 5, 0, 1⟩ ∧
    (print_summary_op (record_timing_op 0 0 5 0 0 0 ⟨true, CounterFile.absent⟩)).1 =
      Except.ok [OutLine.ruleLine, OutLine.titleLine, OutLine.ruleLine,
        OutLine.callsLine 1, OutLine.dashLine, OutLine.ruleLine] ∧
    hasRatioLine [OutLine.ruleLine, OutLine.titleLine, OutLine.ruleLine,
      OutLine.callsLine 1, OutLine.dashLine, OutLine.ruleLine] = false ∧
    ((5 : ℚ) = 0 → False) := by
  refine ⟨?_, ?_, ?_, by norm_num⟩
  · norm_num [record_timing_op, _write_timing_data, accum, zeroData]
  · norm_num [record_timing_op, _write_timing_data, accum, zeroData,
      print_summary_op, get_aggregated_summary, _read_timing_data, mkSummary,
      print_summary_lines]
  · rfl

/-- C4 amended: in the printed summary the attention-to-ffn ratio line
appears iff both the total-layer total and the ffn total are strictly
positive; the percentage-bearing lines and the grand-total line appear
iff the total-layer total is strictly positive; the call-count line is
unconditional. -/
theorem C4_print_gating (d : TimingData) :
    (hasRatioLine (print_summary_lines (mkSummary d)) = true ↔
      0 < d.total_layer_ms ∧ 0 < d.ffn_ms) ∧
    (hasPercentLines (print_summary_lines (mkSummary d)) = true ↔
      0 < d.total_layer_ms) ∧
    (hasTotalMsLine (print_summary_lines (mkSummary d)) = true ↔
      0 < d.total_layer_ms) ∧
    hasCallsLine (print_summary_lines (mkSummary d)) = true := by
  simp only [print_summary_lines, mkSummary]
  by_cases ht : 0 < d.total_layer_ms <;> by_cases hf : 0 < d.ffn_ms <;>
    simp [ht, hf, hasRatioLine, hasPercentLines, hasTotalMsLine, hasCallsLine,
      isRatioLine, isPercentLine, isTotalMsLine, isCallsLine]

/-- C5 counterexample: with the flag enabled and the counter absent, a
record call supplying attention duration -1 produces a stored record
whose attention total is negative, so a record operation does not
preserve the non-negativity invariant for every input. -/
theorem C5_counterexample :
    (record_timing_op 0 (-1) 0 0 0 0 ⟨true, CounterFile.absent⟩).counter =
      CounterFile.record ⟨-1, 0, 0, 1⟩ ∧
    ¬ goodData ⟨-1, 0, 0, 1⟩ := by
  constructor
  · norm_num [record_timing_op, _write_timing_data, accum, zeroData]
  · intro h
    have h1 : (0 : ℚ) ≤ -1 := h.1
    norm_num at h1

/-- C5 amended: a record call whose three durations are all non-negative
preserves the counter invariant (all fields non-negative; zero count
forces zero totals) and leaves every field of the effectively visible
record non-decreasing. -/
theorem C5_invariant_preserved (li : ℤ) (a f il pa t : ℚ) (c : CounterFile)
    (ha : 0 ≤ a) (hf : 0 ≤ f) (ht : 0 ≤ t) (hc : goodCounter c) :
    goodCounter (record_timing_op li a f il pa t ⟨true, c⟩).counter ∧
    (effData c).attention_ms ≤
      (effData (record_timing_op li a f il pa t ⟨true, c⟩).counter).attention_ms ∧
    (effData c).ffn_ms ≤
      (effData (record_timing_op li a f il pa t ⟨true, c⟩).counter).ffn_ms ∧
    (effData c).total_layer_ms ≤
      (effData (record_timing_op li a f il pa t ⟨true, c⟩).counter).total_layer_ms ∧
    (effData c).count ≤
      (effData (record_timing_op li a f il pa t ⟨true, c⟩).counter).count := by
  cases c with
  | absent =>
      have hstep : (record_timing_op li a f il pa t ⟨true, CounterFile.absent⟩).counter =
          CounterFile.record (accum zeroData a f t) := by
        simp [record_timing_op, _write_timing_data]
      rw [hstep]
      simp only [goodCounter, goodData, effData, accum, zeroData]
      norm_num
      exact ⟨ha, hf, ht⟩
  | ioErr => exact absurd hc (by simp [goodCounter])
  | unparseable => exact absurd hc (by simp [goodCounter])
  | undecodable => exact absurd hc (by simp [goodCounter])
  | nonDict => exact absurd hc (by simp [goodCounter])
  | record d =>
      obtain ⟨h1, h2, h3, h4, _⟩ := hc
      have hstep : (record_timing_op li a f il pa t ⟨true, CounterFile.record d⟩).counter =
          CounterFile.record (accum d a f t) := by
        simp [record_timing_op, _write_timing_data]
      rw [hstep]
      simp only [goodCounter, goodData, effData, accum]
      refine ⟨⟨by linarith, by linarith, by linarith, by linarith, ?_⟩,
        by linarith, by linarith, by linarith, by linarith⟩
      intro hzero
      exfalso
      omega

/-- C5 witness: the amended preservation theorem applied to a concrete
non-negative record call from the absent counter. -/
theorem C5_invariant_preserved_witness :
    (0 : ℚ) ≤ 1 ∧ (0 : ℚ) ≤ 2 ∧ (0 : ℚ) ≤ 3 ∧ goodCounter CounterFile.absent ∧
    goodCounter (record_timing_op 0 1 2 0 0 3 ⟨true, CounterFile.absent⟩).counter :=
  ⟨by norm_num, by norm_num, by norm_num, trivial,
    (C5_invariant_preserved 0 1 2 0 0 3 CounterFile.absent (by norm_num)
      (by norm_num) (by norm_num) trivial).1⟩

/-- C6 counterexample: a counter file holding valid JSON that is not an
object (such as the text [1]) makes get_aggregated_summary raise
AttributeError instead of proceeding with the all-zero record, and a
counter file whose bytes are not decodable text makes the load step
itself raise UnicodeDecodeError, so an exception is surfaced to the
caller. -/
theorem C6_counterexample :
    (get_aggregated_summary_op ⟨true, CounterFile.nonDict⟩).1 =
      Except.error PyExn.attributeError ∧
    _read_timing_data CounterFile.undecodable =
      Except.error PyExn.unicodeDecodeError := ⟨rfl, rfl⟩

/-- C6 amended: for an absent counter file, an I/O read failure, or
content that is not valid JSON, no exception is surfaced: the load step
returns the zero record, the summary proceeds with it, and a record call
treats the content as the zero record and overwrites it; content that is
valid JSON but not an object, or not decodable as text, leaves a record
call a silent no-op (the write is aborted by the blanket except clause),
while the aggregation path raises for those two contents. -/
theorem C6_errors_absorbed :
    _read_timing_data CounterFile.absent = Except.ok (PyValue.dict zeroData) ∧
    _read_timing_data CounterFile.ioErr = Except.ok (PyValue.dict zeroData) ∧
    _read_timing_data CounterFile.unparseable = Except.ok (PyValue.dict zeroData) ∧
    (get_aggregated_summary_op ⟨true, CounterFile.ioErr⟩).1 = Except.ok zeroSummary ∧
    (get_aggregated_summary_op ⟨true, CounterFile.unparseable⟩).1 =
      Except.ok zeroSummary ∧
    (∀ a f t : ℚ,
      _write_timing_data a f t CounterFile.ioErr =
        CounterFile.record (accum zeroData a f t) ∧
      _write_timing_data a f t CounterFile.unparseable =
        CounterFile.record (accum zeroData a f t) ∧
      _write_timing_data a f t CounterFile.undecodable = CounterFile.undecodable ∧
      _write_timing_data a f t CounterFile.nonDict = CounterFile.nonDict) := by
  refine ⟨rfl, rfl, rfl, ?_, ?_, fun a f t => ⟨rfl, rfl, rfl, rfl⟩⟩ <;>
    norm_num [get_aggregated_summary_op, get_aggregated_summary,
      _read_timing_data, mkSummary, zeroData, zeroSummary]

/-- C7: from any starting state, enable then is_enabled yields true,
disable then is_enabled yields false, both enable and disable are
idempotent, and is_enabled reports exactly the flag file's presence. -/
theorem C7_flag_contract (b b' : Bool) (s : SysState) :
    (is_enabled_op (enable_op b s)).1 = true ∧
    (is_enabled_op (disable_op s)).1 = false ∧
    enable_op b (enable_op b' s) = enable_op b' s ∧
    disable_op (disable_op s) = disable_op s ∧
    ((is_enabled_op s).1 = true ↔ s.enabled = true) :=
  ⟨rfl, rfl, rfl, rfl, Iff.rfl⟩

/-- C8: reset is clear followed by disable, and afterwards is_enabled is
false and the summary is the all-zero summary, whatever the prior
state. -/
theorem C8_reset (s : SysState) :
    reset_op s = disable_op (clear_op s) ∧
    (is_enabled_op (reset_op s)).1 = false ∧
    (get_aggregated_summary_op (reset_op s)).1 = Except.ok zeroSummary := by
  refine ⟨rfl, rfl, ?_⟩
  norm_num [reset_op, disable_op, clear_op, get_aggregated_summary_op,
    get_aggregated_summary, _read_timing_data, mkSummary, zeroData, zeroSummary]

/-- C9: layer_idx, input_layernorm_ms and post_attn_layernorm_ms never
influence the result of a record call: two calls agreeing on the state
and on attention_ms, ffn_ms, total_layer_ms but arbitrary in those three
arguments produce identical states. -/
theorem C9_dead_params (li li' : ℤ) (a f il il' pa pa' t : ℚ) (s : SysState) :
    record_timing_op li a f il pa t s = record_timing_op li' a f il' pa' t s := rfl

/-- C10: the aggregation operations are read-only: get_aggregated_summary
and print_summary leave the flag and the counter file unchanged. -/
theorem C10_read_only (s : SysState) :
    (get_aggregated_summary_op s).2 = s ∧ (print_summary_op s).2 = s :=
  ⟨rfl, rfl⟩

end LayerTiming
